import Mathlib

/-!
Shallow embedding of the session/authentication and navigation core of the
Procure-to-Pay front-end client, and proofs about its specified behaviour.

Embedded pieces, each translated from the JavaScript source:
* the axios response interceptor with silent token refresh
  (src/unnamed/part_002, `api.interceptors.response`);
* the user-payload normalization, and the session-restore routine `initAuth`
  (src/frontend/src/context/AuthContext.js);
* the role-based menu resolvers of the header and the sidebar
  (src/frontend/src/components/common/Header/Header.js `menuItems`,
   src/frontend/src/components/common/Sidebar/Sidebar.js `getMenuItems`);
* the `ProtectedRoute` guard (src/unnamed/part_003).

External calls (token refresh endpoint, the who-am-I endpoint, JSON
serialization) are passed in as explicit oracle arguments; browser storage is
modelled by the three session keys the code reads and writes.
-/

namespace P2P

/-- The three persisted browser-storage keys used by the session core of the
client (`access_token`, `refresh_token`, serialized `user`); `none` models a
key absent from localStorage. -/
structure Storage where
  access_token : Option String
  refresh_token : Option String
  user : Option String
deriving DecidableEq

/-- An outbound request as the interceptor sees it: an identifier, the
`Authorization` header (if any) and the one-shot `_retry` flag the
interceptor stamps on the request object (field `retried` here). -/
structure Request where
  id : Nat
  auth : Option String
  retried : Bool
deriving DecidableEq

/-- The rejection an axios response interceptor receives: the originating
request (`error.config`) and the HTTP status of the response when one exists
(`error.response?.status`); `none` models a network-level failure that
produced no response at all. -/
structure AxiosError where
  config : Request
  status : Option Nat
deriving DecidableEq

/-- What the interceptor hands back to the original caller. -/
inductive InterceptResult where
  /-- `Promise.reject` carrying the original error. -/
  | reject (e : AxiosError)
  /-- `Promise.reject` carrying the error raised by the refresh call itself. -/
  | rejectRefresh (err : String)
  /-- `return api(originalRequest)`: the caller receives the response of this
  re-issued request. -/
  | reissued (req : Request)
deriving DecidableEq

/-- The observable outcome of one run of the response-interceptor error
handler: the value handed to the caller, the final state of the three storage
keys, the number of calls made to the token-refresh endpoint, and the target
assigned to `window.location.href` when a redirect happened. -/
structure InterceptOutput where
  result : InterceptResult
  storage : Storage
  refreshCalls : Nat
  redirect : Option String
deriving DecidableEq

/-- The error branch of `api.interceptors.response` (src/unnamed/part_002,
lines 142-186).  The token-refresh endpoint is the oracle `refresh`, taking
the stored refresh token to either a fresh access token or an error.  The
source guard `if (!refreshToken)` is JavaScript truthiness: both an absent
key and a stored empty string take the teardown path that propagates the
original error without calling the refresh endpoint. -/
def responseInterceptorOnError (st : Storage) (e : AxiosError)
    (refresh : String → Except String String) : InterceptOutput :=
  if e.status = some 401 ∧ e.config.retried = false then
    let orig : Request := { e.config with retried := true }
    match st.refresh_token with
    | none =>
        { result := .reject e
          storage := { access_token := none, refresh_token := none, user := none }
          refreshCalls := 0
          redirect := some "/login" }
    | some rt =>
        if rt = "" then
          { result := .reject e
            storage := { access_token := none, refresh_token := none, user := none }
            refreshCalls := 0
            redirect := some "/login" }
        else match refresh rt with
        | .ok access =>
            { result := .reissued { orig with auth := some ("Bearer " ++ access) }
              storage := { st with access_token := some access }
              refreshCalls := 1
              redirect := none }
        | .error err =>
            { result := .rejectRefresh err
              storage := { access_token := none, refresh_token := none, user := none }
              refreshCalls := 1
              redirect := some "/login" }
  else
    { result := .reject e, storage := st, refreshCalls := 0, redirect := none }

/-- C1: a 401 on a request not yet flagged as retried, with a refresh token in
storage and a refresh endpoint that answers with a fresh access token, causes
exactly one refresh call, stores the new access token, re-issues the original
request (now flagged) with the new bearer token, and hands that re-issued
request's response to the caller with no redirect; a 401 on a request already
flagged as retried is propagated to the caller with no further refresh
attempt.  A refresh token is present in the sense of the source's
`if (!refreshToken)` guard when the stored value is a non-empty string. -/
theorem C1_refresh_and_retry_once :
    (∀ (st : Storage) (e : AxiosError) (refresh : String → Except String String)
        (rt access : String),
        e.status = some 401 → e.config.retried = false →
        st.refresh_token = some rt → rt ≠ "" → refresh rt = .ok access →
        (responseInterceptorOnError st e refresh).refreshCalls = 1 ∧
        (responseInterceptorOnError st e refresh).storage.access_token = some access ∧
        (responseInterceptorOnError st e refresh).storage.refresh_token = st.refresh_token ∧
        (responseInterceptorOnError st e refresh).storage.user = st.user ∧
        (responseInterceptorOnError st e refresh).result =
          .reissued { id := e.config.id, auth := some ("Bearer " ++ access), retried := true } ∧
        (responseInterceptorOnError st e refresh).redirect = none) ∧
    (∀ (st : Storage) (e : AxiosError) (refresh : String → Except String String),
        e.status = some 401 → e.config.retried = true →
        (responseInterceptorOnError st e refresh).result = .reject e ∧
        (responseInterceptorOnError st e refresh).refreshCalls = 0 ∧
        (responseInterceptorOnError st e refresh).storage = st) := by
  constructor
  · intro st e refresh rt access h1 h2 h3 hne h4
    simp [responseInterceptorOnError, h1, h2, h3, hne, h4]
  · intro st e refresh h1 h2
    simp [responseInterceptorOnError, h1, h2]

/-- Witness for C1 at concrete inputs: a first 401 with refresh token "rt"
and a refresh endpoint returning "new", and a second, already-flagged 401. -/
theorem C1_refresh_and_retry_once_witness :
    ((responseInterceptorOnError
        { access_token := some "old", refresh_token := some "rt", user := some "u" }
        { config := { id := 0, auth := some "Bearer old", retried := false }, status := some 401 }
        (fun _ => Except.ok "new")).refreshCalls = 1 ∧
      (responseInterceptorOnError
        { access_token := some "old", refresh_token := some "rt", user := some "u" }
        { config := { id := 0, auth := some "Bearer old", retried := false }, status := some 401 }
        (fun _ => Except.ok "new")).storage.access_token = some "new" ∧
      (responseInterceptorOnError
        { access_token := some "old", refresh_token := some "rt", user := some "u" }
        { config := { id := 0, auth := some "Bearer old", retried := false }, status := some 401 }
        (fun _ => Except.ok "new")).storage.refresh_token =
          (Storage.mk (some "old") (some "rt") (some "u")).refresh_token ∧
      (responseInterceptorOnError
        { access_token := some "old", refresh_token := some "rt", user := some "u" }
        { config := { id := 0, auth := some "Bearer old", retried := false }, status := some 401 }
        (fun _ => Except.ok "new")).storage.user =
          (Storage.mk (some "old") (some "rt") (some "u")).user ∧
      (responseInterceptorOnError
        { access_token := some "old", refresh_token := some "rt", user := some "u" }
        { config := { id := 0, auth := some "Bearer old", retried := false }, status := some 401 }
        (fun _ => Except.ok "new")).result =
          .reissued { id := 0, auth := some ("Bearer " ++ "new"), retried := true } ∧
      (responseInterceptorOnError
        { access_token := some "old", refresh_token := some "rt", user := some "u" }
        { config := { id := 0, auth := some "Bearer old", retried := false }, status := some 401 }
        (fun _ => Except.ok "new")).redirect = none) ∧
    ((responseInterceptorOnError
        { access_token := some "old", refresh_token := some "rt", user := some "u" }
        { config := { id := 1, auth := some "Bearer old", retried := true }, status := some 401 }
        (fun _ => Except.ok "new")).result =
          .reject { config := { id := 1, auth := some "Bearer old", retried := true },
                    status := some 401 } ∧
      (responseInterceptorOnError
        { access_token := some "old", refresh_token := some "rt", user := some "u" }
        { config := { id := 1, auth := some "Bearer old", retried := true }, status := some 401 }
        (fun _ => Except.ok "new")).refreshCalls = 0 ∧
      (responseInterceptorOnError
        { access_token := some "old", refresh_token := some "rt", user := some "u" }
        { config := { id := 1, auth := some "Bearer old", retried := true }, status := some 401 }
        (fun _ => Except.ok "new")).storage =
          { access_token := some "old", refresh_token := some "rt", user := some "u" }) :=
  ⟨C1_refresh_and_retry_once.1 _ _ _ "rt" "new" rfl rfl rfl (by decide) rfl,
   C1_refresh_and_retry_once.2 _ _ _ rfl rfl⟩

/-- C2: a 401 on a request not yet flagged as retried, with a refresh token in
storage (a non-empty string, per the source's `if (!refreshToken)` truthiness
guard) but a refresh endpoint that fails, tears the session down (all three
persisted keys removed), redirects to the login entry point, and rejects the
caller's promise with the refresh error, not the original 401 error. -/
theorem C2_refresh_failure_teardown :
    ∀ (st : Storage) (e : AxiosError) (refresh : String → Except String String)
      (rt err : String),
      e.status = some 401 → e.config.retried = false →
      st.refresh_token = some rt → rt ≠ "" → refresh rt = .error err →
      (responseInterceptorOnError st e refresh).storage =
        { access_token := none, refresh_token := none, user := none } ∧
      (responseInterceptorOnError st e refresh).redirect = some "/login" ∧
      (responseInterceptorOnError st e refresh).result = .rejectRefresh err ∧
      (responseInterceptorOnError st e refresh).result ≠ .reject e := by
  intro st e refresh rt err h1 h2 h3 hne h4
  simp [responseInterceptorOnError, h1, h2, h3, hne, h4]

/-- Witness for C2 at concrete inputs: a 401 whose refresh call fails with
"expired". -/
theorem C2_refresh_failure_teardown_witness :
    (responseInterceptorOnError
        { access_token := some "old", refresh_token := some "rt", user := some "u" }
        { config := { id := 0, auth := some "Bearer old", retried := false }, status := some 401 }
        (fun _ => Except.error "expired")).storage =
      { access_token := none, refresh_token := none, user := none } ∧
    (responseInterceptorOnError
        { access_token := some "old", refresh_token := some "rt", user := some "u" }
        { config := { id := 0, auth := some "Bearer old", retried := false }, status := some 401 }
        (fun _ => Except.error "expired")).redirect = some "/login" ∧
    (responseInterceptorOnError
        { access_token := some "old", refresh_token := some "rt", user := some "u" }
        { config := { id := 0, auth := some "Bearer old", retried := false }, status := some 401 }
        (fun _ => Except.error "expired")).result = .rejectRefresh "expired" ∧
    (responseInterceptorOnError
        { access_token := some "old", refresh_token := some "rt", user := some "u" }
        { config := { id := 0, auth := some "Bearer old", retried := false }, status := some 401 }
        (fun _ => Except.error "expired")).result ≠
      .reject { config := { id := 0, auth := some "Bearer old", retried := false },
                status := some 401 } :=
  C2_refresh_failure_teardown _ _ _ "rt" "expired" rfl rfl rfl (by decide) rfl

/-- C8: a failure carrying no HTTP response at all (network-level failure) is
propagated to the caller unchanged: the refresh endpoint is never called, the
three storage keys are untouched, and no redirect occurs. -/
theorem C8_network_failure_passthrough :
    ∀ (st : Storage) (e : AxiosError) (refresh : String → Except String String),
      e.status = none →
      (responseInterceptorOnError st e refresh).result = .reject e ∧
      (responseInterceptorOnError st e refresh).refreshCalls = 0 ∧
      (responseInterceptorOnError st e refresh).storage = st ∧
      (responseInterceptorOnError st e refresh).redirect = none := by
  intro st e refresh h
  simp [responseInterceptorOnError, h]

/-- Witness for C8 at a concrete input: an error with no response. -/
theorem C8_network_failure_passthrough_witness :
    (responseInterceptorOnError
        { access_token := some "a", refresh_token := some "rt", user := some "u" }
        { config := { id := 0, auth := some "Bearer a", retried := false }, status := none }
        (fun _ => Except.ok "new")).result =
      .reject { config := { id := 0, auth := some "Bearer a", retried := false },
                status := none } ∧
    (responseInterceptorOnError
        { access_token := some "a", refresh_token := some "rt", user := some "u" }
        { config := { id := 0, auth := some "Bearer a", retried := false }, status := none }
        (fun _ => Except.ok "new")).refreshCalls = 0 ∧
    (responseInterceptorOnError
        { access_token := some "a", refresh_token := some "rt", user := some "u" }
        { config := { id := 0, auth := some "Bearer a", retried := false }, status := none }
        (fun _ => Except.ok "new")).storage =
      { access_token := some "a", refresh_token := some "rt", user := some "u" } ∧
    (responseInterceptorOnError
        { access_token := some "a", refresh_token := some "rt", user := some "u" }
        { config := { id := 0, auth := some "Bearer a", retried := false }, status := none }
        (fun _ => Except.ok "new")).redirect = none :=
  C8_network_failure_passthrough _ _ _ rfl

/-- The nested `profile` object of the who-am-I payload, as read by
`normalizeUserData` (AuthContext.js). -/
structure Profile where
  role : Option String
  role_display : Option String
deriving DecidableEq

/-- An upstream user payload as `normalizeUserData` receives it: `none` for
`role`, `role_display` and `is_superuser` models an absent (undefined)
field. -/
structure UserPayload where
  id : Nat
  username : String
  email : String
  role : Option String
  role_display : Option String
  is_superuser : Option Bool
  profile : Option Profile
deriving DecidableEq

/-- The identity object `normalizeUserData` produces (AuthContext.js); the
JavaScript spread in the first branch also preserves payload fields beyond
these, which no consumer in the embedded core reads. -/
structure NormalizedUser where
  id : Nat
  username : String
  email : String
  role : Option String
  role_display : Option String
  is_superuser : Bool
deriving DecidableEq

/-- The JavaScript expression `x || null` on an optional string: an absent or
empty string collapses to null. -/
def jsOrNull : Option String → Option String
  | some s => if s = "" then none else some s
  | none => none

/-- `normalizeUserData` (AuthContext.js, lines 20-66).  The first branch fires
when the payload carries a top-level `role` field; its `is_superuser` value is
the JavaScript `userData.role === 'admin' || userData.is_superuser || false`. -/
def normalizeUserData (userData : UserPayload) : NormalizedUser :=
  if userData.role ≠ none then
    { id := userData.id
      username := userData.username
      email := userData.email
      role := userData.role
      role_display := userData.role_display
      is_superuser := if userData.role = some "admin" then true
                      else userData.is_superuser.getD false }
  else if userData.is_superuser.getD false then
    { id := userData.id
      username := userData.username
      email := userData.email
      role := some "admin"
      role_display := some "Administrator"
      is_superuser := true }
  else
    match userData.profile with
    | some prof =>
        { id := userData.id
          username := userData.username
          email := userData.email
          role := jsOrNull prof.role
          role_display := jsOrNull prof.role_display
          is_superuser := false }
    | none =>
        { id := userData.id
          username := userData.username
          email := userData.email
          role := none
          role_display := none
          is_superuser := false }

/-- JavaScript truthiness of a value read from localStorage: present and not
the empty string. -/
def truthyStr : Option String → Bool
  | none => false
  | some s => s ≠ ""

/-- The React auth state set by `initAuth`: the in-memory user, the
`isAuthenticated` flag and the `loading` flag. -/
structure AuthState where
  user : Option NormalizedUser
  isAuthenticated : Bool
  loading : Bool
deriving DecidableEq

/-- The observable outcome of one run of `initAuth`: how many times the
who-am-I endpoint was called, the final state of the three storage keys, and
the resulting auth state. -/
structure InitOutcome where
  networkCalls : Nat
  storage : Storage
  state : AuthState
deriving DecidableEq

/-- `initAuth` (AuthContext.js, lines 69-100).  The who-am-I endpoint is the
oracle `getCurrentUser`; `stringify` models `JSON.stringify` on the
normalized user written back to storage on success. -/
def initAuth (st : Storage) (getCurrentUser : Except String UserPayload)
    (stringify : NormalizedUser → String) : InitOutcome :=
  if truthyStr st.user && truthyStr st.access_token then
    match getCurrentUser with
    | .ok userData =>
        let normalizedUser := normalizeUserData userData
        { networkCalls := 1
          storage := { st with user := some (stringify normalizedUser) }
          state := { user := some normalizedUser, isAuthenticated := true, loading := false } }
    | .error _ =>
        { networkCalls := 1
          storage := { access_token := none, refresh_token := none, user := none }
          state := { user := none, isAuthenticated := false, loading := false } }
  else
    { networkCalls := 0
      storage := st
      state := { user := none, isAuthenticated := false, loading := false } }

/-- C9: when the payload carries a top-level role, normalization keeps that
role, and computes `is_superuser` as the disjunction of `role === 'admin'`
with the payload's own flag; in particular role `admin` forces
`is_superuser = true` even when the payload's flag is false or absent. -/
theorem C9_admin_role_forces_superuser :
    ∀ (p : UserPayload) (r : String), p.role = some r →
      (normalizeUserData p).role = some r ∧
      (normalizeUserData p).is_superuser =
        (if r = "admin" then true else p.is_superuser.getD false) ∧
      (r = "admin" → (normalizeUserData p).is_superuser = true) := by
  intro p r h
  simp [normalizeUserData, h]
  intro hr
  exact Or.inl hr

/-- Witness for C9 at a concrete input: a payload with top-level role "admin"
and `is_superuser: false` normalizes to `is_superuser = true`. -/
theorem C9_admin_role_forces_superuser_witness :
    (normalizeUserData { id := 3, username := "a", email := "a@x", role := some "admin",
                         role_display := some "Administrator", is_superuser := some false,
                         profile := none }).role = some "admin" ∧
    (normalizeUserData { id := 3, username := "a", email := "a@x", role := some "admin",
                         role_display := some "Administrator", is_superuser := some false,
                         profile := none }).is_superuser =
      (if "admin" = "admin" then true
       else (Option.some false).getD false) ∧
    ("admin" = "admin" →
      (normalizeUserData { id := 3, username := "a", email := "a@x", role := some "admin",
                           role_display := some "Administrator", is_superuser := some false,
                           profile := none }).is_superuser = true) :=
  C9_admin_role_forces_superuser _ "admin" rfl

/-- C10: when the two persisted keys checked by session restore (serialized
user, access token) are not both present, `initAuth` marks the session
unauthenticated, finishes loading, issues no network call, and leaves all
persisted storage keys exactly as they were. -/
theorem C10_partial_session_left_untouched :
    ∀ (st : Storage) (getCurrentUser : Except String UserPayload)
      (stringify : NormalizedUser → String),
      ¬ (truthyStr st.user = true ∧ truthyStr st.access_token = true) →
      (initAuth st getCurrentUser stringify).networkCalls = 0 ∧
      (initAuth st getCurrentUser stringify).storage = st ∧
      (initAuth st getCurrentUser stringify).state =
        { user := none, isAuthenticated := false, loading := false } := by
  intro st getCurrentUser stringify h
  have hcond : (truthyStr st.user && truthyStr st.access_token) = false := by
    cases hu : truthyStr st.user <;> cases ha : truthyStr st.access_token <;>
      simp_all
  simp [initAuth, hcond]

/-- Witness for C10 at a concrete input: a stored user with no access token
(a partially persisted session) is left in storage unchanged. -/
theorem C10_partial_session_left_untouched_witness :
    ¬ (truthyStr (Storage.mk none none (some "u")).user = true ∧
       truthyStr (Storage.mk none none (some "u")).access_token = true) ∧
    (initAuth { access_token := none, refresh_token := none, user := some "u" }
        (Except.error "boom") (fun _ => "s")).networkCalls = 0 ∧
    (initAuth { access_token := none, refresh_token := none, user := some "u" }
        (Except.error "boom") (fun _ => "s")).storage =
      { access_token := none, refresh_token := none, user := some "u" } ∧
    (initAuth { access_token := none, refresh_token := none, user := some "u" }
        (Except.error "boom") (fun _ => "s")).state =
      { user := none, isAuthenticated := false, loading := false } :=
  ⟨by decide,
   C10_partial_session_left_untouched _ (Except.error "boom") (fun _ => "s") (by decide)⟩

/-- C5 counterexample: a payload that lacks a role, is not a superuser and has
no profile is normalized to `role = null` — a normalized identity whose role
is empty, contradicting the claim that every normalized identity other than
the superuser-without-role case has a non-empty role. -/
theorem C5_counterexample :
    (normalizeUserData { id := 7, username := "bob", email := "b@x", role := none,
                         role_display := none, is_superuser := some false,
                         profile := none }).role = none ∧
    (normalizeUserData { id := 8, username := "eve", email := "e@x", role := none,
                         role_display := none, is_superuser := none,
                         profile := some { role := none, role_display := none } }).role
      = none := by
  constructor
  · rfl
  · rfl

/-- C5 amended: a payload that lacks a role but carries `is_superuser = true`
is normalized to role `admin` with display "Administrator"; but the role of a
normalized identity can be empty: a payload lacking a role, not flagged
superuser, and carrying no profile role is normalized to `role = null`. -/
theorem C5_superuser_normalization :
    (∀ p : UserPayload, p.role = none → p.is_superuser = some true →
        (normalizeUserData p).role = some "admin" ∧
        (normalizeUserData p).role_display = some "Administrator" ∧
        (normalizeUserData p).is_superuser = true) ∧
    (∀ p : UserPayload, p.role = none → p.is_superuser.getD false = false →
        p.profile = none →
        (normalizeUserData p).role = none ∧
        (normalizeUserData p).role_display = none ∧
        (normalizeUserData p).is_superuser = false) := by
  constructor
  · intro p h1 h2
    simp [normalizeUserData, h1, h2]
  · intro p h1 h2 h3
    simp [normalizeUserData, h1, h2, h3]

/-- Witness for the amended C5 at concrete inputs: a superuser payload with no
role, and a plain payload with neither role nor profile. -/
theorem C5_superuser_normalization_witness :
    ((normalizeUserData { id := 1, username := "root", email := "r@x", role := none,
                          role_display := none, is_superuser := some true,
                          profile := none }).role = some "admin" ∧
      (normalizeUserData { id := 1, username := "root", email := "r@x", role := none,
                           role_display := none, is_superuser := some true,
                           profile := none }).role_display = some "Administrator" ∧
      (normalizeUserData { id := 1, username := "root", email := "r@x", role := none,
                           role_display := none, is_superuser := some true,
                           profile := none }).is_superuser = true) ∧
    ((normalizeUserData { id := 2, username := "bob", email := "b@x", role := none,
                          role_display := none, is_superuser := none,
                          profile := none }).role = none ∧
      (normalizeUserData { id := 2, username := "bob", email := "b@x", role := none,
                           role_display := none, is_superuser := none,
                           profile := none }).role_display = none ∧
      (normalizeUserData { id := 2, username := "bob", email := "b@x", role := none,
                           role_display := none, is_superuser := none,
                           profile := none }).is_superuser = false) :=
  ⟨C5_superuser_normalization.1 _ rfl rfl,
   C5_superuser_normalization.2 _ rfl rfl rfl⟩

/-- The JavaScript expression `user?.role || 'staff'` used by both menu
resolvers: a missing user, a missing role, or an empty role string all
default to "staff". -/
def roleOrStaff : Option NormalizedUser → String
  | none => "staff"
  | some u =>
      match u.role with
      | none => "staff"
      | some r => if r = "" then "staff" else r

/-- The JavaScript expression `user?.is_superuser || false` used by both menu
resolvers. -/
def isSuperuserOf : Option NormalizedUser → Bool
  | none => false
  | some u => u.is_superuser

/-- A header navigation entry (Header.js): path, label and the roles array
attached in the source. -/
structure HMenuItem where
  path : String
  label : String
  roles : List String
deriving DecidableEq

/-- Header.js `baseMenu`. -/
def headerBaseMenu : List HMenuItem :=
  [{ path := "/dashboard", label := "Dashboard",
     roles := ["staff", "approver_level_1", "approver_level_2", "approver-level-1",
               "approver-level-2", "finance", "admin"] }]

/-- Header.js `staffMenu`. -/
def headerStaffMenu : List HMenuItem :=
  [{ path := "/requests/my-requests", label := "My Requests", roles := ["staff"] },
   { path := "/requests/create", label := "Create Request", roles := ["staff"] }]

/-- Header.js `approverMenu`. -/
def headerApproverMenu : List HMenuItem :=
  [{ path := "/approvals/pending", label := "Pending Approvals",
     roles := ["approver_level_1", "approver_level_2", "approver-level-1",
               "approver-level-2"] },
   { path := "/requests/all", label := "All Requests",
     roles := ["approver_level_1", "approver_level_2", "approver-level-1",
               "approver-level-2"] }]

/-- Header.js `financeMenu`. -/
def headerFinanceMenu : List HMenuItem :=
  [{ path := "/requests/approved", label := "Approved Requests", roles := ["finance"] },
   { path := "/requests/all", label := "All Requests", roles := ["finance"] }]

/-- Header.js `adminMenu`. -/
def headerAdminMenu : List HMenuItem :=
  [{ path := "/requests/all", label := "All Requests", roles := ["admin"] },
   { path := "/admin/users", label := "Users", roles := ["admin"] },
   { path := "/admin/request-types", label := "Request Types", roles := ["admin"] },
   { path := "/admin/approval-levels", label := "Approval Levels", roles := ["admin"] }]

/-- The duplicate-removal loop at the end of Header.js `menuItems` (lines
135-145): keep the first item seen for each path, accumulating seen paths. -/
def dedupByPath (seen : List String) : List HMenuItem → List HMenuItem
  | [] => []
  | i :: rest =>
      if i.path ∈ seen then dedupByPath seen rest
      else i :: dedupByPath (i.path :: seen) rest

/-- The assembly phase of Header.js `menuItems` (lines 20-133), before the
duplicate-removal loop: the early return for no-user-and-not-loading, then
the superuser and per-role branches. -/
def headerRawMenuItems (user : Option NormalizedUser) (loading : Bool) : List HMenuItem :=
  if user = none ∧ loading = false then []
  else
    let role := roleOrStaff user
    if isSuperuserOf user then
      if role ≠ "admin" then
        headerBaseMenu ++ headerStaffMenu ++ headerApproverMenu ++
          headerFinanceMenu ++ headerAdminMenu
      else headerBaseMenu ++ headerAdminMenu
    else if role = "staff" then headerBaseMenu ++ headerStaffMenu
    else if role = "approver_level_1" ∨ role = "approver_level_2" ∨
            role = "approver-level-1" ∨ role = "approver-level-2" then
      headerBaseMenu ++ headerApproverMenu
    else if role = "finance" then headerBaseMenu ++ headerFinanceMenu
    else if role = "admin" then headerBaseMenu ++ headerAdminMenu
    else headerBaseMenu

/-- Header.js `menuItems` (lines 20-146): the assembled list with duplicates
removed by path. -/
def headerMenuItems (user : Option NormalizedUser) (loading : Bool) : List HMenuItem :=
  dedupByPath [] (headerRawMenuItems user loading)

/-- A sidebar navigation entry (Sidebar.js): path, label, icon and the roles
array attached in the source. -/
structure SMenuItem where
  path : String
  label : String
  icon : String
  roles : List String
deriving DecidableEq

/-- Sidebar.js `baseMenu`. -/
def sidebarBaseMenu : List SMenuItem :=
  [{ path := "/dashboard", label := "Dashboard", icon := "fas fa-home",
     roles := ["staff", "approver-level-1", "approver-level-2", "finance", "admin"] }]

/-- Sidebar.js `staffMenu`. -/
def sidebarStaffMenu : List SMenuItem :=
  [{ path := "/requests/my-requests", label := "My Requests", icon := "fas fa-list",
     roles := ["staff"] },
   { path := "/requests/create", label := "Create Request", icon := "fas fa-plus-circle",
     roles := ["staff"] }]

/-- Sidebar.js `approverMenu`. -/
def sidebarApproverMenu : List SMenuItem :=
  [{ path := "/approvals/pending", label := "Pending Approvals", icon := "fas fa-clock",
     roles := ["approver-level-1", "approver-level-2"] },
   { path := "/requests/all", label := "All Requests", icon := "fas fa-list-alt",
     roles := ["approver-level-1", "approver-level-2"] }]

/-- Sidebar.js `financeMenu`. -/
def sidebarFinanceMenu : List SMenuItem :=
  [{ path := "/requests/approved", label := "Approved Requests", icon := "fas fa-check-circle",
     roles := ["finance"] },
   { path := "/requests/all", label := "All Requests", icon := "fas fa-list-alt",
     roles := ["finance"] }]

/-- Sidebar.js `adminMenu`. -/
def sidebarAdminMenu : List SMenuItem :=
  [{ path := "/requests/all", label := "All Requests", icon := "fas fa-list-alt",
     roles := ["admin"] },
   { path := "/admin/users", label := "Users Management", icon := "fas fa-users",
     roles := ["admin"] },
   { path := "/admin/request-types", label := "Request Types", icon := "fas fa-tags",
     roles := ["admin"] },
   { path := "/admin/approval-levels", label := "Approval Levels", icon := "fas fa-layer-group",
     roles := ["admin"] }]

/-- Sidebar.js `commonMenu`. -/
def sidebarCommonMenu : List SMenuItem :=
  [{ path := "/profile", label := "Profile", icon := "fas fa-user",
     roles := ["staff", "approver-level-1", "approver-level-2", "finance", "admin"] }]

/-- Sidebar.js `getMenuItems` (lines 12-139): assembled by concatenation with
no duplicate removal and no special case for a superuser whose role is
already admin. -/
def sidebarGetMenuItems (user : Option NormalizedUser) : List SMenuItem :=
  let role := roleOrStaff user
  if isSuperuserOf user then
    sidebarBaseMenu ++ sidebarStaffMenu ++ sidebarApproverMenu ++
      sidebarFinanceMenu ++ sidebarAdminMenu ++ sidebarCommonMenu
  else if role = "staff" then sidebarBaseMenu ++ sidebarStaffMenu ++ sidebarCommonMenu
  else if role = "approver-level-1" ∨ role = "approver-level-2" then
    sidebarBaseMenu ++ sidebarApproverMenu ++ sidebarCommonMenu
  else if role = "finance" then sidebarBaseMenu ++ sidebarFinanceMenu ++ sidebarCommonMenu
  else if role = "admin" then sidebarBaseMenu ++ sidebarAdminMenu ++ sidebarCommonMenu
  else sidebarBaseMenu

/-- The duplicate-removal loop only ever drops items: its output is a sublist
of its input, so first-seen order is preserved. -/
theorem dedupByPath_sublist :
    ∀ (l : List HMenuItem) (seen : List String), (dedupByPath seen l).Sublist l := by
  intro l
  induction l with
  | nil => intro seen; simp [dedupByPath]
  | cons i rest ih =>
      intro seen
      by_cases h : i.path ∈ seen
      · simpa [dedupByPath, h] using List.Sublist.cons i (ih seen)
      · simpa [dedupByPath, h] using List.Sublist.cons₂ i (ih (i.path :: seen))

/-- The duplicate-removal loop emits no item whose path was already seen, and
its output has pairwise distinct paths. -/
theorem dedupByPath_paths_nodup :
    ∀ (l : List HMenuItem) (seen : List String),
      ((dedupByPath seen l).map (fun i => i.path)).Nodup ∧
      ∀ i ∈ dedupByPath seen l, i.path ∉ seen := by
  intro l
  induction l with
  | nil => intro seen; simp [dedupByPath]
  | cons i rest ih =>
      intro seen
      by_cases h : i.path ∈ seen
      · simpa [dedupByPath, h] using ih seen
      · obtain ⟨hnd, havoid⟩ := ih (i.path :: seen)
        have hd : dedupByPath seen (i :: rest) = i :: dedupByPath (i.path :: seen) rest := by
          simp [dedupByPath, h]
        refine ⟨?_, ?_⟩
        · rw [hd, List.map_cons, List.nodup_cons]
          refine ⟨?_, hnd⟩
          intro hmem
          obtain ⟨j, hj, hjp⟩ := List.mem_map.mp hmem
          exact havoid j hj (by simp [hjp])
        · intro j hj
          rw [hd, List.mem_cons] at hj
          rcases hj with rfl | hj
          · exact h
          · intro hins
            exact havoid j hj (List.mem_cons_of_mem _ hins)

/-- The duplicate-removal loop keeps exactly the paths of its input that were
not already seen: for an unseen path, some item carries it in the output iff
some item carries it in the input. -/
theorem dedupByPath_path_mem :
    ∀ (l : List HMenuItem) (seen : List String) (p : String), p ∉ seen →
      ((∃ i ∈ dedupByPath seen l, i.path = p) ↔ ∃ i ∈ l, i.path = p) := by
  intro l
  induction l with
  | nil => intro seen p _; simp [dedupByPath]
  | cons i rest ih =>
      intro seen p hp
      by_cases h : i.path ∈ seen
      · have hd : dedupByPath seen (i :: rest) = dedupByPath seen rest := by
          simp [dedupByPath, h]
        have hip : i.path ≠ p := fun he => hp (he ▸ h)
        rw [hd, ih seen p hp]
        constructor
        · rintro ⟨j, hj, rfl⟩
          exact ⟨j, List.mem_cons_of_mem _ hj, rfl⟩
        · rintro ⟨j, hj, rfl⟩
          rcases List.mem_cons.mp hj with rfl | hj
          · exact absurd rfl hip
          · exact ⟨j, hj, rfl⟩
      · have hd : dedupByPath seen (i :: rest) = i :: dedupByPath (i.path :: seen) rest := by
          simp [dedupByPath, h]
        rw [hd]
        by_cases hip : i.path = p
        · constructor
          · intro _
            exact ⟨i, List.mem_cons_self i rest, hip⟩
          · intro _
            exact ⟨i, List.mem_cons_self i _, hip⟩
        · have hpext : p ∉ i.path :: seen := by
            intro hmem
            rcases List.mem_cons.mp hmem with he | he
            · exact hip he.symm
            · exact hp he
          constructor
          · rintro ⟨j, hj, rfl⟩
            rcases List.mem_cons.mp hj with rfl | hj
            · exact absurd rfl hip
            · obtain ⟨k, hk, hkp⟩ := (ih (i.path :: seen) j.path hpext).mp ⟨j, hj, rfl⟩
              exact ⟨k, List.mem_cons_of_mem _ hk, hkp⟩
          · rintro ⟨j, hj, rfl⟩
            rcases List.mem_cons.mp hj with rfl | hj
            · exact absurd rfl hip
            · obtain ⟨k, hk, hkp⟩ := (ih (i.path :: seen) j.path hpext).mpr ⟨j, hj, rfl⟩
              exact ⟨k, List.mem_cons_of_mem _ hk, hkp⟩

/-- Every item the duplicate-removal loop keeps is the first item of its
input carrying that path: searching the input for the kept item's path finds
exactly the kept item.  Together with the sublist property this pins the
output to the first occurrences in first-seen order. -/
theorem dedupByPath_first_occurrence :
    ∀ (l : List HMenuItem) (seen : List String) (i : HMenuItem),
      i ∈ dedupByPath seen l →
      l.find? (fun j => j.path == i.path) = some i := by
  intro l
  induction l with
  | nil => intro seen i hi; simp [dedupByPath] at hi
  | cons a rest ih =>
      intro seen i hi
      by_cases h : a.path ∈ seen
      · have hd : dedupByPath seen (a :: rest) = dedupByPath seen rest := by
          simp [dedupByPath, h]
        rw [hd] at hi
        have havoid := (dedupByPath_paths_nodup rest seen).2 i hi
        have hne : (a.path == i.path) = false := by
          simp only [beq_eq_false_iff_ne, ne_eq]
          intro he
          exact havoid (he ▸ h)
        simp only [List.find?_cons, hne]
        exact ih seen i hi
      · have hd : dedupByPath seen (a :: rest) = a :: dedupByPath (a.path :: seen) rest := by
          simp [dedupByPath, h]
        rw [hd, List.mem_cons] at hi
        rcases hi with rfl | hi
        · simp [List.find?_cons]
        · have havoid := (dedupByPath_paths_nodup rest (a.path :: seen)).2 i hi
          have hne : (a.path == i.path) = false := by
            simp only [beq_eq_false_iff_ne, ne_eq]
            intro he
            exact havoid (by rw [← he]; exact List.mem_cons_self _ _)
          simp only [List.find?_cons, hne]
          exact ih (a.path :: seen) i hi

/-- C3 counterexample: for a superuser whose role is already admin, the
sidebar resolver does not produce base + admin only — it produces the full
concatenation of every contribution set plus the common Profile entry, so
the claimed behaviour does not hold identically for both resolvers. -/
theorem C3_counterexample :
    sidebarGetMenuItems (some { id := 1, username := "root", email := "r@x",
                                role := some "admin", role_display := some "Administrator",
                                is_superuser := true }) ≠
      sidebarBaseMenu ++ sidebarAdminMenu := by decide

/-- C3 amended: the header resolver behaves as claimed — a superuser with a
role other than admin gets the deduplicated union of base and all four
contribution sets, and a superuser with role admin gets base + admin only,
with no duplicate paths; the sidebar resolver instead gives every superuser,
admin or not, the concatenation of base, staff, approver, finance, admin and
the common Profile set, with no admin special case. -/
theorem C3_superuser_menus :
    (∀ (u : NormalizedUser) (loading : Bool), u.is_superuser = true →
        roleOrStaff (some u) ≠ "admin" →
        headerMenuItems (some u) loading =
          dedupByPath [] (headerBaseMenu ++ headerStaffMenu ++ headerApproverMenu ++
            headerFinanceMenu ++ headerAdminMenu)) ∧
    (∀ (u : NormalizedUser) (loading : Bool), u.is_superuser = true →
        roleOrStaff (some u) = "admin" →
        headerMenuItems (some u) loading = headerBaseMenu ++ headerAdminMenu ∧
        ((headerMenuItems (some u) loading).map (fun i => i.path)).Nodup) ∧
    (∀ u : NormalizedUser, u.is_superuser = true →
        sidebarGetMenuItems (some u) =
          sidebarBaseMenu ++ sidebarStaffMenu ++ sidebarApproverMenu ++
            sidebarFinanceMenu ++ sidebarAdminMenu ++ sidebarCommonMenu) := by
  refine ⟨?_, ?_, ?_⟩
  · intro u loading h1 h2
    simp [headerMenuItems, headerRawMenuItems, isSuperuserOf, h1, h2]
  · intro u loading h1 h2
    refine ⟨?_, ?_⟩ <;>
      simp [headerMenuItems, headerRawMenuItems, isSuperuserOf, h1, h2] <;> decide
  · intro u h1
    simp [sidebarGetMenuItems, isSuperuserOf, h1]

/-- Witness for the amended C3 at concrete identities: a superuser with role
staff and a superuser with role admin. -/
theorem C3_superuser_menus_witness :
    (headerMenuItems (some { id := 1, username := "su", email := "s@x", role := some "staff",
                             role_display := none, is_superuser := true }) false =
       dedupByPath [] (headerBaseMenu ++ headerStaffMenu ++ headerApproverMenu ++
         headerFinanceMenu ++ headerAdminMenu)) ∧
    (headerMenuItems (some { id := 2, username := "ad", email := "a@x", role := some "admin",
                             role_display := none, is_superuser := true }) false =
       headerBaseMenu ++ headerAdminMenu ∧
      ((headerMenuItems (some { id := 2, username := "ad", email := "a@x",
                                role := some "admin", role_display := none,
                                is_superuser := true }) false).map (fun i => i.path)).Nodup) ∧
    (sidebarGetMenuItems (some { id := 1, username := "su", email := "s@x",
                                 role := some "staff", role_display := none,
                                 is_superuser := true }) =
       sidebarBaseMenu ++ sidebarStaffMenu ++ sidebarApproverMenu ++
         sidebarFinanceMenu ++ sidebarAdminMenu ++ sidebarCommonMenu) :=
  ⟨C3_superuser_menus.1 _ false rfl (by decide),
   C3_superuser_menus.2.1 _ false rfl (by decide),
   C3_superuser_menus.2.2 _ rfl⟩

/-- C4 counterexample: the sidebar of a superuser contains the path
"/requests/all" more than once, so it is not true that every resolved menu is
deduplicated by path. -/
theorem C4_counterexample :
    ¬ ((sidebarGetMenuItems (some { id := 1, username := "root", email := "r@x",
                                    role := some "staff", role_display := none,
                                    is_superuser := true })).map
          (fun i => i.path)).Nodup := by decide

/-- C4 amended: the header resolver does deduplicate by path — its result is a
sublist of the assembled list, its paths are pairwise distinct, it covers
exactly the assembled paths, and every kept item is the first item of the
assembled list carrying its path (so only first occurrences survive, in
first-seen order); the sidebar resolver performs no deduplication, and a
superuser's sidebar carries the path "/requests/all" three times. -/
theorem C4_header_dedup_sidebar_none :
    (∀ (user : Option NormalizedUser) (loading : Bool),
        ((headerMenuItems user loading).map (fun i => i.path)).Nodup ∧
        (headerMenuItems user loading).Sublist (headerRawMenuItems user loading) ∧
        (∀ p, (∃ i ∈ headerMenuItems user loading, i.path = p) ↔
              (∃ i ∈ headerRawMenuItems user loading, i.path = p)) ∧
        ∀ i ∈ headerMenuItems user loading,
          (headerRawMenuItems user loading).find? (fun j => j.path == i.path) = some i) ∧
    ((sidebarGetMenuItems (some { id := 1, username := "root", email := "r@x",
                                  role := some "staff", role_display := none,
                                  is_superuser := true })).map
          (fun i => i.path)).count "/requests/all" = 3 := by
  constructor
  · intro user loading
    refine ⟨(dedupByPath_paths_nodup _ []).1, dedupByPath_sublist _ [], ?_, ?_⟩
    · intro p
      exact dedupByPath_path_mem _ [] p (by simp)
    · intro i hi
      exact dedupByPath_first_occurrence _ [] i hi
  · decide

/-- C7 counterexample: an identity with the unknown non-empty role "manager"
does not resolve to the staff menu in either resolver — it gets the base
entry only, while role staff gets base plus the staff set. -/
theorem C7_counterexample :
    headerMenuItems (some { id := 1, username := "m", email := "m@x", role := some "manager",
                            role_display := none, is_superuser := false }) false ≠
      headerMenuItems (some { id := 2, username := "s", email := "s@x", role := some "staff",
                              role_display := none, is_superuser := false }) false ∧
    sidebarGetMenuItems (some { id := 1, username := "m", email := "m@x",
                                role := some "manager", role_display := none,
                                is_superuser := false }) ≠
      sidebarGetMenuItems (some { id := 2, username := "s", email := "s@x",
                                  role := some "staff", role_display := none,
                                  is_superuser := false }) := by
  constructor <;> decide

/-- C7 amended: the staff fallback fires only when the role is absent or the
empty string (the JavaScript `user?.role || 'staff'` default): such an
identity resolves to the staff menus; a non-superuser identity with a
non-empty role outside the known enumeration resolves to the base entry only,
in both the header and the sidebar — not to the staff contribution set. -/
theorem C7_unknown_role_menus :
    (∀ (u : NormalizedUser) (loading : Bool), u.is_superuser = false →
        (u.role = none ∨ u.role = some "") →
        headerMenuItems (some u) loading =
          dedupByPath [] (headerBaseMenu ++ headerStaffMenu) ∧
        sidebarGetMenuItems (some u) =
          sidebarBaseMenu ++ sidebarStaffMenu ++ sidebarCommonMenu) ∧
    (∀ (u : NormalizedUser) (r : String) (loading : Bool), u.is_superuser = false →
        u.role = some r → r ≠ "" →
        r ∉ ["staff", "approver_level_1", "approver_level_2", "approver-level-1",
             "approver-level-2", "finance", "admin"] →
        headerMenuItems (some u) loading = headerBaseMenu ∧
        sidebarGetMenuItems (some u) = sidebarBaseMenu) := by
  constructor
  · intro u loading h1 h2
    have hr : roleOrStaff (some u) = "staff" := by
      rcases h2 with h2 | h2 <;> simp [roleOrStaff, h2]
    constructor
    · simp [headerMenuItems, headerRawMenuItems, isSuperuserOf, h1, hr]
    · simp [sidebarGetMenuItems, isSuperuserOf, h1, hr]
  · intro u r loading h1 h2 h3 h4
    have hr : roleOrStaff (some u) = r := by simp [roleOrStaff, h2, h3]
    simp only [List.mem_cons, List.mem_singleton, not_or] at h4
    obtain ⟨n1, n2, n3, n4, n5, n6, n7⟩ := h4
    constructor
    · simp [headerMenuItems, headerRawMenuItems, isSuperuserOf, h1, hr,
            n1, n2, n3, n4, n5, n6, n7, dedupByPath, headerBaseMenu]
    · simp [sidebarGetMenuItems, isSuperuserOf, h1, hr, n1, n4, n5, n6, n7]

/-- Witness for the amended C7 at concrete identities: a user with an absent
role, and a user with the unknown role "manager". -/
theorem C7_unknown_role_menus_witness :
    (headerMenuItems (some { id := 1, username := "n", email := "n@x", role := none,
                             role_display := none, is_superuser := false }) false =
       dedupByPath [] (headerBaseMenu ++ headerStaffMenu) ∧
      sidebarGetMenuItems (some { id := 1, username := "n", email := "n@x", role := none,
                                  role_display := none, is_superuser := false }) =
        sidebarBaseMenu ++ sidebarStaffMenu ++ sidebarCommonMenu) ∧
    (headerMenuItems (some { id := 2, username := "m", email := "m@x",
                             role := some "manager", role_display := none,
                             is_superuser := false }) false = headerBaseMenu ∧
      sidebarGetMenuItems (some { id := 2, username := "m", email := "m@x",
                                  role := some "manager", role_display := none,
                                  is_superuser := false }) = sidebarBaseMenu) :=
  ⟨C7_unknown_role_menus.1 _ false rfl (Or.inl rfl),
   C7_unknown_role_menus.2 _ "manager" false rfl rfl (by decide) (by decide)⟩

/-- What a render of `ProtectedRoute` produces: the neutral waiting view, a
`Navigate` element with a target and the replace flag, or the guarded
children. -/
inductive RouteDecision where
  | loadingIndicator
  | navigate (target : String) (replace : Bool)
  | children
deriving DecidableEq

/-- The JavaScript `allowedRoles.includes(user.role)` membership test: a
missing role is contained in no role list. -/
def roleIncluded (role : Option String) (rs : List String) : Bool :=
  match role with
  | some r => rs.contains r
  | none => false

/-- `ProtectedRoute` (src/unnamed/part_003, lines 13-43): loading check, then
authentication check, then the optional role check guarded by
`allowedRoles && user`. -/
def protectedRoute (allowedRoles : Option (List String)) (loading isAuthenticated : Bool)
    (user : Option NormalizedUser) : RouteDecision :=
  if loading then .loadingIndicator
  else if !isAuthenticated then .navigate "/login" true
  else
    match allowedRoles, user with
    | some rs, some u =>
        if roleIncluded u.role rs then .children
        else .navigate "/dashboard" true
    | _, _ => .children

/-- C6: the route guard is a pure decision table — while loading it renders
the waiting indicator; anonymous visitors are redirected to the login entry
point with history replaced; an authenticated identity whose role is outside
the declared allowed-role set is redirected to the dashboard with history
replaced; an authenticated identity whose role is allowed, or with no
restriction declared, gets the guarded children. -/
theorem C6_route_guard_decision_table :
    ∀ (allowedRoles : Option (List String)) (loading isAuthenticated : Bool)
      (user : Option NormalizedUser),
      (loading = true →
        protectedRoute allowedRoles loading isAuthenticated user = .loadingIndicator) ∧
      (loading = false → isAuthenticated = false →
        protectedRoute allowedRoles loading isAuthenticated user = .navigate "/login" true) ∧
      (∀ (rs : List String) (u : NormalizedUser) (r : String),
        loading = false → isAuthenticated = true → allowedRoles = some rs →
        user = some u → u.role = some r → r ∉ rs →
        protectedRoute allowedRoles loading isAuthenticated user =
          .navigate "/dashboard" true) ∧
      (∀ (rs : List String) (u : NormalizedUser) (r : String),
        loading = false → isAuthenticated = true → allowedRoles = some rs →
        user = some u → u.role = some r → r ∈ rs →
        protectedRoute allowedRoles loading isAuthenticated user = .children) ∧
      (loading = false → isAuthenticated = true → allowedRoles = none →
        protectedRoute allowedRoles loading isAuthenticated user = .children) := by
  intro allowedRoles loading isAuthenticated user
  refine ⟨?_, ?_, ?_, ?_, ?_⟩
  · intro h
    simp [protectedRoute, h]
  · intro h1 h2
    simp [protectedRoute, h1, h2]
  · intro rs u r h1 h2 h3 h4 h5 h6
    simp [protectedRoute, roleIncluded, h1, h2, h3, h4, h5, h6]
  · intro rs u r h1 h2 h3 h4 h5 h6
    simp [protectedRoute, roleIncluded, h1, h2, h3, h4, h5, h6]
  · intro h1 h2 h3
    cases user <;> simp [protectedRoute, h1, h2, h3]

/-- Witness for C6 at concrete inputs: each of the five rows of the decision
table evaluated on explicit values (an approver denied an admin-only route,
the same approver admitted to an approver route, and an unrestricted
route). -/
theorem C6_route_guard_decision_table_witness :
    (true = true →
      protectedRoute (some ["admin"]) true false none = .loadingIndicator) ∧
    (false = false → false = false →
      protectedRoute (some ["admin"]) false false none = .navigate "/login" true) ∧
    (protectedRoute (some ["admin"]) false true
        (some { id := 5, username := "ap", email := "ap@x",
                role := some "approver_level_2", role_display := none,
                is_superuser := false }) = .navigate "/dashboard" true) ∧
    (protectedRoute (some ["approver_level_2"]) false true
        (some { id := 5, username := "ap", email := "ap@x",
                role := some "approver_level_2", role_display := none,
                is_superuser := false }) = .children) ∧
    (protectedRoute none false true
        (some { id := 5, username := "ap", email := "ap@x",
                role := some "approver_level_2", role_display := none,
                is_superuser := false }) = .children) :=
  ⟨(C6_route_guard_decision_table (some ["admin"]) true false none).1,
   (C6_route_guard_decision_table (some ["admin"]) false false none).2.1,
   (C6_route_guard_decision_table (some ["admin"]) false true _).2.2.1
     ["admin"] _ "approver_level_2" rfl rfl rfl rfl rfl (by decide),
   (C6_route_guard_decision_table (some ["approver_level_2"]) false true _).2.2.2.1
     ["approver_level_2"] _ "approver_level_2" rfl rfl rfl rfl rfl (by decide),
   (C6_route_guard_decision_table none false true _).2.2.2.2 rfl rfl rfl⟩

end P2P
